import Mathlib

/-!
Verification of the Sentiment-IQ gateway against its specification.

The definitions below are a shallow embedding of the repository's
JavaScript sources:
* `src/backend/services/sentimentService.js` (stats tracking, response
  transformation, batch mapping, health probe),
* `src/backend/routes/health.js` (the `/health` aggregation and the
  `POST /analyze` route with its validator chain),
* the serverless fallback scorer `analyzeSentimentSimple`.

JavaScript numbers are modelled as exact rationals (`ℚ`); the explicit
rounding steps of the source (`Math.round`, `toFixed(3)`,
`Math.round(x*100)/100`) are modelled by the corresponding exact
operations on `ℚ`.
-/

namespace SentimentIQ

/-- JavaScript `Math.round`: round half toward positive infinity. -/
def jsRound (q : ℚ) : ℤ := ⌊q + 1 / 2⌋

/-- `parseFloat(x.toFixed(3))`: round to 3 decimal places. -/
def round3 (q : ℚ) : ℚ := (jsRound (q * 1000) : ℚ) / 1000

/-- `Math.round(x * 100) / 100`: round to 2 decimal places. -/
def round2 (q : ℚ) : ℚ := (jsRound (q * 100) : ℚ) / 100

/-- The mutable `this.stats` object of the `SentimentService` singleton
(`lastRequestTime` carries no arithmetic content and is omitted). -/
structure Stats where
  totalRequests : ℕ
  successfulRequests : ℕ
  failedRequests : ℕ
  averageResponseTime : ℤ
  deriving Repr, DecidableEq

/-- The constructor initialises every counter to zero. -/
def initialStats : Stats :=
  { totalRequests := 0, successfulRequests := 0, failedRequests := 0
    averageResponseTime := 0 }

/-- `updateStats(responseTime, success)` from `sentimentService.js`:
bumps the success or failure counter and recomputes the running average
as `Math.round((avg * (totalRequests - 1) + responseTime) / totalRequests)`,
where `totalRequests` has already been incremented by the caller. -/
def updateStats (st : Stats) (responseTime : ℚ) (success : Bool) : Stats :=
  let st' :=
    if success then { st with successfulRequests := st.successfulRequests + 1 }
    else { st with failedRequests := st.failedRequests + 1 }
  { st' with
    averageResponseTime :=
      jsRound (((st'.averageResponseTime : ℚ) * ((st'.totalRequests : ℚ) - 1)
        + responseTime) / (st'.totalRequests : ℚ)) }

/-- The stats effect of one completed `analyzeSentiment` /
`analyzeBatchSentiment` call: `this.stats.totalRequests++` at entry,
then `updateStats` on the success or the catch path. -/
def recordCall (st : Stats) (responseTime : ℚ) (success : Bool) : Stats :=
  updateStats { st with totalRequests := st.totalRequests + 1 } responseTime success

/-- A trace of completed calls (success flag, response-time sample),
folded over the service's stats state from process start. -/
def runCalls (events : List (Bool × ℚ)) : Stats :=
  events.foldl (fun st e => recordCall st e.2 e.1) initialStats

/-- The upstream ML-service JSON payload as `transformMLResponse` reads
it: `sentiment`, an optional numeric `confidence` (absent/null modelled
as `none`), and an optional `probabilities` object modelled as a
key-value list. -/
structure MLResponse where
  sentiment : String
  confidence : Option ℚ
  probabilities : Option (List (String × ℚ))
  deriving Repr, DecidableEq

/-- JavaScript `(c || 0)` on an optional number: absent, null and `0`
are falsy and yield `0`; any other number passes through. -/
def jsOrZero (c : Option ℚ) : ℚ :=
  match c with
  | none => 0
  | some x => if x = 0 then 0 else x

/-- `getSentimentEmoji(sentiment)`: the fixed emoji map with fallback. -/
def getSentimentEmoji (sentiment : String) : String :=
  if sentiment = "Positive" then "😊"
  else if sentiment = "Negative" then "😞"
  else if sentiment = "Neutral" then "😐"
  else "🤔"

/-- Result of `transformMLResponse` (the `processingTime` string field
is kept as its numeric value in milliseconds). -/
structure TransformedResult where
  sentiment : String
  confidence : ℚ
  processingTime : ℚ
  probabilities : Option (List (String × ℚ))
  text : Option String
  emoji : String
  deriving Repr, DecidableEq

/-- `transformMLResponse(mlResponse, processingTime, originalText)`:
rounds `confidence` (defaulted to 0 when falsy) and every probability
value to 3 decimal places, copies `sentiment`, attaches the original
text when truthy (the empty string is falsy), and attaches the emoji. -/
def transformMLResponse (mlResponse : MLResponse) (processingTime : ℚ)
    (originalText : Option String) : TransformedResult :=
  { sentiment := mlResponse.sentiment
    confidence := round3 (jsOrZero mlResponse.confidence)
    processingTime := processingTime
    probabilities :=
      mlResponse.probabilities.map (fun ps => ps.map (fun kv => (kv.1, round3 kv.2)))
    text :=
      match originalText with
      | some t => if t = "" then none else some t
      | none => none
    emoji := getSentimentEmoji mlResponse.sentiment }

/-- The result mapping of `analyzeBatchSentiment`:
`response.data.predictions.map((prediction, index) =>
transformMLResponse(prediction, processingTime / texts.length, texts[index]))`
(`texts[index]` is `undefined` past the end, modelled by `get?`). -/
def analyzeBatchResults (texts : List String) (preds : List MLResponse)
    (processingTime : ℚ) : List TransformedResult :=
  preds.enum.map (fun ip =>
    transformMLResponse ip.2 (processingTime / (texts.length : ℚ)) (texts.get? ip.1))

/-- JavaScript `String.prototype.trim`: strip leading and trailing
whitespace. -/
def jsTrim (s : String) : String :=
  ⟨((s.data.dropWhile fun c => c.isWhitespace).reverse.dropWhile
      fun c => c.isWhitespace).reverse⟩

/-- The `validateTextInput` chain of `routes/sentiment.js`: the `trim()`
sanitizer followed by `notEmpty()` and `isLength({min: 1, max: 5000})`
(the final `matches(/^[\s\S]*$/)` accepts every string). -/
def validateTextInput (text : String) : Bool :=
  let trimmed := jsTrim text
  decide (trimmed ≠ "") && decide (1 ≤ trimmed.length) && decide (trimmed.length ≤ 5000)

/-- Outcome of the single upstream `axios.post` as the route observes
it: a resolved response carrying the payload, or a rejection. -/
inductive UpstreamOutcome where
  | success (resp : MLResponse)
  | failure
  deriving Repr, DecidableEq

/-- What `POST /analyze` sends back: the 400 validation short-circuit,
the 200 success body, or an error handed to the error middleware. -/
inductive AnalyzeResponse where
  | validationError
  | ok (result : TransformedResult)
  | upstreamFailure
  deriving Repr, DecidableEq

/-- HTTP status of an `AnalyzeResponse`. The route itself fixes 400
(`res.status(400)`) and 200 (`res.json`); an upstream failure reaches
the error middleware, which answers with a 4xx/5xx code depending on
the error's message — fixed here at 503, the code for the unreachable
ML service, since no claim depends on the split of the failure codes. -/
def responseStatus : AnalyzeResponse → ℕ
  | .validationError => 400
  | .ok _ => 200
  | .upstreamFailure => 503

/-- Result of one `POST /analyze` request: the response, the service
stats after the request, and whether the upstream call was dispatched. -/
structure AnalyzeOutcome where
  response : AnalyzeResponse
  stats : Stats
  upstreamCalled : Bool
  deriving Repr, DecidableEq

/-- The `POST /analyze` handler: when `validationResult` is non-empty
it answers 400 before `analyzeSentiment` runs; otherwise
`analyzeSentiment` increments the counters via `recordCall` and either
transforms the upstream payload or propagates the error. -/
def analyzeHandler (text : String) (st : Stats) (up : UpstreamOutcome)
    (elapsed : ℚ) : AnalyzeOutcome :=
  if validateTextInput text then
    match up with
    | .success resp =>
        { response := .ok (transformMLResponse resp elapsed none)
          stats := recordCall st elapsed true
          upstreamCalled := true }
    | .failure =>
        { response := .upstreamFailure
          stats := recordCall st elapsed false
          upstreamCalled := true }
  else
    { response := .validationError, stats := st, upstreamCalled := false }

/-- `checkMLServiceHealth`: answers `'healthy'` when the probe request
resolves and `'unhealthy'` when it rejects (the catch branch). -/
def checkMLServiceHealthStatus (probeOk : Bool) : String :=
  if probeOk then "healthy" else "unhealthy"

/-- The `services` object the `GET /health` handler assembles. -/
structure HealthServices where
  api : String
  mlService : String
  deriving Repr, DecidableEq

/-- The observable outcome of `GET /health`. -/
structure HealthData where
  status : String
  services : HealthServices
  statusCode : ℕ
  deriving Repr, DecidableEq

/-- The `GET /health` handler of `routes/health.js`: `api` is always
`'healthy'`, `mlService` comes from the probe, overall `status` is
downgraded to `'degraded'` unless every entry of `serviceStatuses` is
`'healthy'`, and the HTTP code follows the overall status. -/
def healthHandler (probeOk : Bool) : HealthData :=
  let services : HealthServices :=
    { api := "healthy", mlService := checkMLServiceHealthStatus probeOk }
  let serviceStatuses := [services.api, services.mlService]
  let allServicesHealthy := serviceStatuses.all (fun s => s == "healthy")
  let status := if allServicesHealthy then "healthy" else "degraded"
  { status := status
    services := services
    statusCode := if status == "healthy" then 200 else 503 }

/-- The fixed positive-word list of `analyzeSentimentSimple`. -/
def positiveWords : List String :=
  ["love", "great", "awesome", "amazing", "excellent", "fantastic", "wonderful",
   "good", "best", "perfect", "happy", "excited", "brilliant", "outstanding",
   "superb", "magnificent", "incredible", "marvelous", "terrific", "fabulous"]

/-- The fixed negative-word list of `analyzeSentimentSimple`. -/
def negativeWords : List String :=
  ["hate", "terrible", "awful", "horrible", "bad", "worst", "disgusting",
   "disappointing", "sad", "angry", "frustrated", "annoying", "useless",
   "pathetic", "ridiculous", "stupid", "boring", "dreadful", "appalling"]

/-- JavaScript `String.prototype.toLowerCase` (ASCII-faithful). -/
def jsToLower (s : String) : String :=
  ⟨s.data.map Char.toLower⟩

/-- JavaScript `s.includes(w)`: `w` occurs as a contiguous substring. -/
def includes (s w : String) : Bool :=
  decide (w.data <:+: s.data)

/-- `positiveScore`: one point per positive word occurring in the
lower-cased input (`lowerText.includes(word)` inside the `forEach`). -/
def positiveScore (text : String) : ℕ :=
  positiveWords.countP (fun w => includes (jsToLower text) w)

/-- `negativeScore`: one point per negative word occurring in the
lower-cased input. -/
def negativeScore (text : String) : ℕ :=
  negativeWords.countP (fun w => includes (jsToLower text) w)

/-- The sentiment/confidence selection of `analyzeSentimentSimple`
before any rounding: higher score wins with
`min(0.6 + score * 0.1, 0.95)`, a tie is Neutral with `0.7`. -/
def rawSentimentConfidence (text : String) : String × ℚ :=
  let p := positiveScore text
  let n := negativeScore text
  if p > n then ("Positive", min (0.6 + (p : ℚ) * 0.1) 0.95)
  else if n > p then ("Negative", min (0.6 + (n : ℚ) * 0.1) 0.95)
  else ("Neutral", 0.7)

/-- The three class probabilities, before the final rounding. -/
structure Probs where
  Positive : ℚ
  Negative : ℚ
  Neutral : ℚ
  deriving Repr, DecidableEq

/-- The probability construction of `analyzeSentimentSimple`: the
winner takes `confidence`; the remainder is split 0.3/0.7 between the
other polar class and Neutral, or 0.5/0.5 for a Neutral result. -/
def rawProbabilities (sentiment : String) (confidence : ℚ) : Probs :=
  if sentiment = "Positive" then
    { Positive := confidence
      Negative := (1 - confidence) * 0.3
      Neutral := (1 - confidence) * 0.7 }
  else if sentiment = "Negative" then
    { Negative := confidence
      Positive := (1 - confidence) * 0.3
      Neutral := (1 - confidence) * 0.7 }
  else
    { Neutral := confidence
      Positive := (1 - confidence) * 0.5
      Negative := (1 - confidence) * 0.5 }

/-- The value `analyzeSentimentSimple` returns. -/
structure SimpleSentiment where
  label : String
  confidence : ℚ
  probabilities : Probs
  deriving Repr, DecidableEq

/-- `analyzeSentimentSimple(text)`: scores, winner selection, raw
probabilities, then `Math.round(x * 100) / 100` on the confidence and
on each probability. -/
def analyzeSentimentSimple (text : String) : SimpleSentiment :=
  let sc := rawSentimentConfidence text
  let probs := rawProbabilities sc.1 sc.2
  { label := sc.1
    confidence := round2 sc.2
    probabilities :=
      { Positive := round2 probs.Positive
        Negative := round2 probs.Negative
        Neutral := round2 probs.Neutral } }

/-! ### Helper lemmas -/

lemma jsRound_intCast (z : ℤ) : jsRound (z : ℚ) = z := by
  unfold jsRound
  rw [add_comm, Int.floor_add_int]
  norm_num

lemma round2_div_100 (z : ℤ) : round2 ((z : ℚ) / 100) = (z : ℚ) / 100 := by
  unfold round2
  rw [div_mul_cancel₀ _ (by norm_num : (100 : ℚ) ≠ 0), jsRound_intCast]

lemma recordCall_totalRequests (st : Stats) (rt : ℚ) (b : Bool) :
    (recordCall st rt b).totalRequests = st.totalRequests + 1 := by
  cases b <;> rfl

lemma recordCall_counterSum (st : Stats) (rt : ℚ) (b : Bool) :
    (recordCall st rt b).successfulRequests + (recordCall st rt b).failedRequests
      = st.successfulRequests + st.failedRequests + 1 := by
  cases b <;> simp [recordCall, updateStats] <;> omega

lemma runCalls_foldl_aux (events : List (Bool × ℚ)) (st : Stats) :
    (events.foldl (fun s e => recordCall s e.2 e.1) st).totalRequests
        = st.totalRequests + events.length ∧
      (events.foldl (fun s e => recordCall s e.2 e.1) st).successfulRequests
          + (events.foldl (fun s e => recordCall s e.2 e.1) st).failedRequests
        = st.successfulRequests + st.failedRequests + events.length := by
  induction events generalizing st with
  | nil => simp
  | cons e es ih =>
      have h := ih (recordCall st e.2 e.1)
      simp only [List.foldl_cons, List.length_cons] at h ⊢
      rw [h.1, h.2, recordCall_totalRequests, recordCall_counterSum]
      omega

/-- C2: after any sequence of completed `analyzeSentiment` /
`analyzeBatchSentiment` calls (each counted once, whatever its outcome),
`successfulRequests + failedRequests = totalRequests` and
`totalRequests` equals the number of calls.  Since this holds for every
event list, it holds after every prefix of a trace, i.e. after every
call. -/
theorem stats_counters_balanced (events : List (Bool × ℚ)) :
    (runCalls events).successfulRequests + (runCalls events).failedRequests
        = (runCalls events).totalRequests ∧
      (runCalls events).totalRequests = events.length := by
  have h := runCalls_foldl_aux events initialStats
  unfold runCalls
  constructor
  · rw [h.2, h.1]; simp [initialStats]
  · rw [h.1]; simp [initialStats]

/-- C3 (counterexample): two successful calls with samples 1 ms and
0 ms.  The code's rounded update leaves `averageResponseTime = 1`,
while the claim's exact running mean `avg + (s - avg)/n` gives
`1 + (0 - 1)/2 = 1/2 ≠ 1`. -/
theorem average_response_time_not_exact_mean :
    (runCalls [(true, 1), (true, 0)]).averageResponseTime = 1 ∧
      (1 : ℚ) + ((0 : ℚ) - 1) / 2 = 1 / 2 ∧ ((1 : ℚ) ≠ 1 / 2) := by
  refine ⟨?_, by norm_num, by norm_num⟩
  norm_num [runCalls, recordCall, updateStats, initialStats, jsRound]

/-- C3 (amended): after every completed call, the new average equals
the exact incremental mean `avg + (s - avg)/n` (with `n` the
post-increment `totalRequests`) rounded half-up to the nearest integer
by `Math.round`; because of this per-step rounding it need not equal
the exact arithmetic mean of the samples. -/
theorem average_response_time_rounded_mean (st : Stats) (rt : ℚ) (b : Bool) :
    (recordCall st rt b).averageResponseTime
      = jsRound ((st.averageResponseTime : ℚ)
          + (rt - (st.averageResponseTime : ℚ)) / ((st.totalRequests : ℚ) + 1)) := by
  have hd : ((st.totalRequests : ℚ) + 1) ≠ 0 := by positivity
  cases b <;>
  · simp only [recordCall, updateStats, if_true, if_false, Bool.false_eq_true]
    congr 1
    push_cast
    field_simp
    ring

/-- C5: `GET /health` reports `"healthy"` iff both checked sub-services
(`api` and `mlService`) are healthy; any other outcome is reported as
`"degraded"`; in particular a failed ML probe always yields
`"degraded"`. -/
theorem health_status_aggregation (probeOk : Bool) :
    ((healthHandler probeOk).status = "healthy" ↔
        ((healthHandler probeOk).services.api = "healthy" ∧
          (healthHandler probeOk).services.mlService = "healthy")) ∧
      (probeOk = false → (healthHandler probeOk).status = "degraded") ∧
      ((healthHandler probeOk).status = "healthy" ∨
        (healthHandler probeOk).status = "degraded") := by
  cases probeOk <;> exact ⟨by decide, by decide, by decide⟩

/-- C5 (witness): concrete probe outcomes. -/
theorem health_status_aggregation_witness :
    (healthHandler false).status = "degraded" ∧
      (healthHandler true).status = "healthy" :=
  ⟨(health_status_aggregation false).2.1 rfl,
    ((health_status_aggregation true).1).mpr ⟨rfl, rfl⟩⟩

/-- C9: when the upstream `confidence` is absent/null (`none`) or the
falsy number `0`, `transformMLResponse` still returns a well-formed
result with `confidence = 0`, the upstream `sentiment`, and the emoji
derived from it. -/
theorem transform_falsy_confidence (r : MLResponse) (pt : ℚ) (ot : Option String)
    (h : r.confidence = none ∨ r.confidence = some 0) :
    (transformMLResponse r pt ot).confidence = 0 ∧
      (transformMLResponse r pt ot).sentiment = r.sentiment ∧
      (transformMLResponse r pt ot).emoji = getSentimentEmoji r.sentiment := by
  have h0 : jsOrZero r.confidence = 0 := by
    rcases h with h | h <;> simp [jsOrZero, h]
  refine ⟨?_, rfl, rfl⟩
  simp [transformMLResponse, h0, round3, jsRound]
  norm_num

/-- C9 (witness): a payload with no confidence field. -/
theorem transform_falsy_confidence_witness :
    (transformMLResponse ⟨"Positive", none, none⟩ 1 none).confidence = 0 ∧
      (transformMLResponse ⟨"Positive", none, none⟩ 1 none).sentiment = "Positive" ∧
      (transformMLResponse ⟨"Positive", none, none⟩ 1 none).emoji
        = getSentimentEmoji "Positive" :=
  transform_falsy_confidence ⟨"Positive", none, none⟩ 1 none (Or.inl rfl)

/-- C1: when the text is empty after trimming or its trimmed length
exceeds 5000, `POST /analyze` answers the 400 validation error, never
dispatches the upstream call, and leaves the service stats untouched. -/
theorem analyze_validation_short_circuit (text : String) (st : Stats)
    (up : UpstreamOutcome) (elapsed : ℚ)
    (h : jsTrim text = "" ∨ 5000 < (jsTrim text).length) :
    (analyzeHandler text st up elapsed).response = .validationError ∧
      responseStatus (analyzeHandler text st up elapsed).response = 400 ∧
      (analyzeHandler text st up elapsed).upstreamCalled = false ∧
      (analyzeHandler text st up elapsed).stats = st := by
  have hv : validateTextInput text = false := by
    rcases h with h | h
    · simp [validateTextInput, h]
    · have hlen : ¬((jsTrim text).length ≤ 5000) := by omega
      simp [validateTextInput, hlen]
  simp [analyzeHandler, hv, responseStatus]

/-- C1 (witness): a whitespace-only text. -/
theorem analyze_validation_short_circuit_witness :
    (analyzeHandler "   " initialStats .failure 5).response = .validationError ∧
      responseStatus (analyzeHandler "   " initialStats .failure 5).response = 400 ∧
      (analyzeHandler "   " initialStats .failure 5).upstreamCalled = false ∧
      (analyzeHandler "   " initialStats .failure 5).stats = initialStats :=
  analyze_validation_short_circuit "   " initialStats .failure 5 (Or.inl (by decide))

/-- C4: `analyzeBatchSentiment` keeps the result array index-aligned
with the input: whenever position `i` holds prediction `p` and input
text `t` (non-empty, as validation guarantees), position `i` of the
result is the transform of `p` carrying `t`, and the result has one
entry per prediction. -/
theorem batch_results_index_aligned (texts : List String) (preds : List MLResponse)
    (pt : ℚ) (i : ℕ) (p : MLResponse) (t : String)
    (hp : preds[i]? = some p) (ht : texts[i]? = some t) (hne : t ≠ "") :
    (analyzeBatchResults texts preds pt)[i]?
        = some (transformMLResponse p (pt / (texts.length : ℚ)) (some t)) ∧
      (transformMLResponse p (pt / (texts.length : ℚ)) (some t)).text = some t ∧
      (analyzeBatchResults texts preds pt).length = preds.length := by
  refine ⟨?_, by simp [transformMLResponse, hne], by simp [analyzeBatchResults]⟩
  simp [analyzeBatchResults, List.getElem?_map, List.getElem?_enum, hp, ht]

/-- C4 (witness): a concrete two-element batch, checked at index 1. -/
theorem batch_results_index_aligned_witness :
    (analyzeBatchResults ["a", "b"] [⟨"Positive", some 0.9, none⟩, ⟨"Negative", some 0.8, none⟩] 10)[1]?
        = some (transformMLResponse ⟨"Negative", some 0.8, none⟩
            (10 / ((["a", "b"] : List String).length : ℚ)) (some "b")) ∧
      (transformMLResponse ⟨"Negative", some 0.8, none⟩
          (10 / ((["a", "b"] : List String).length : ℚ)) (some "b")).text = some "b" ∧
      (analyzeBatchResults ["a", "b"] [⟨"Positive", some 0.9, none⟩, ⟨"Negative", some 0.8, none⟩] 10).length
        = ([⟨"Positive", some 0.9, none⟩, ⟨"Negative", some 0.8, none⟩] : List MLResponse).length :=
  batch_results_index_aligned ["a", "b"] [⟨"Positive", some 0.9, none⟩, ⟨"Negative", some 0.8, none⟩]
    10 1 ⟨"Negative", some 0.8, none⟩ "b" rfl rfl (by decide)

/-- Sum of the values of a probabilities object. -/
def sumValues (ps : List (String × ℚ)) : ℚ := (ps.map Prod.snd).sum

/-- A payload whose probabilities sum to 0.9, not 1. -/
def exNonNormalized : MLResponse :=
  ⟨"Positive", some 0.5, some [("Positive", 0.5), ("Negative", 0.2), ("Neutral", 0.2)]⟩

/-- C6: `transformMLResponse` rounds the confidence and every
probability value to 3 decimal places and passes the probabilities
through unrenormalized: values already at 3 decimals are preserved
verbatim (so their sum is preserved), and on a concrete payload whose
probabilities sum to 0.9 the output sum stays 0.9 ≠ 1. -/
theorem transform_rounds_and_passes_through (r : MLResponse) (pt : ℚ) (ot : Option String) :
    (transformMLResponse r pt ot).confidence = round3 (jsOrZero r.confidence) ∧
      (transformMLResponse r pt ot).probabilities
        = r.probabilities.map (fun ps => ps.map fun kv => (kv.1, round3 kv.2)) ∧
      (∀ ps, r.probabilities = some ps → (∀ kv ∈ ps, round3 kv.2 = kv.2) →
        ∃ qs, (transformMLResponse r pt ot).probabilities = some qs ∧
          sumValues qs = sumValues ps) ∧
      (∃ qs, (transformMLResponse exNonNormalized pt ot).probabilities = some qs ∧
        sumValues qs = 0.9 ∧ sumValues qs ≠ 1) := by
  refine ⟨rfl, rfl, ?_, ?_⟩
  · intro ps hps hfix
    refine ⟨ps.map fun kv => (kv.1, round3 kv.2), by simp [transformMLResponse, hps], ?_⟩
    unfold sumValues
    rw [List.map_map]
    congr 1
    refine List.map_congr_left ?_
    intro kv hkv
    simp [hfix kv hkv]
  · refine ⟨_, rfl, ?_, ?_⟩ <;>
      norm_num [exNonNormalized, transformMLResponse, sumValues, round3, jsRound]

/-- C6 (witness): the 0.9-sum payload passes through unchanged. -/
theorem transform_rounds_and_passes_through_witness :
    ∃ qs, (transformMLResponse exNonNormalized 5 none).probabilities = some qs ∧
      sumValues qs
        = sumValues [("Positive", (0.5 : ℚ)), ("Negative", 0.2), ("Neutral", 0.2)] := by
  refine (transform_rounds_and_passes_through exNonNormalized 5 none).2.2.1
    [("Positive", 0.5), ("Negative", 0.2), ("Neutral", 0.2)] rfl ?_
  intro kv hkv
  fin_cases hkv <;> norm_num [round3, jsRound]

lemma round2_conf (k : ℕ) :
    round2 (min (0.6 + (k : ℚ) * 0.1) 0.95) = min (0.6 + (k : ℚ) * 0.1) 0.95 := by
  have h : min (0.6 + (k : ℚ) * 0.1) 0.95 = ((min (60 + 10 * (k : ℤ)) 95 : ℤ) : ℚ) / 100 := by
    rw [Int.cast_min, ← min_div_div_right (by norm_num : (0:ℚ) ≤ 100)]
    congr 1
    · push_cast; ring
    · norm_num
  rw [h, round2_div_100]

lemma round2_point7 : round2 (0.7 : ℚ) = 0.7 := by
  have h : (0.7 : ℚ) = ((70 : ℤ) : ℚ) / 100 := by norm_num
  rw [h, round2_div_100]

/-- The returned confidence equals the raw one: every reachable raw
confidence is already exact at 2 decimal places. -/
lemma analyzeSimple_confidence (text : String) :
    (analyzeSentimentSimple text).confidence = (rawSentimentConfidence text).2 := by
  by_cases h1 : negativeScore text < positiveScore text
  · simp [analyzeSentimentSimple, rawSentimentConfidence, h1, gt_iff_lt, round2_conf]
  · by_cases h2 : positiveScore text < negativeScore text
    · simp [analyzeSentimentSimple, rawSentimentConfidence, h1, h2, gt_iff_lt, round2_conf]
    · simp [analyzeSentimentSimple, rawSentimentConfidence, h1, h2, gt_iff_lt, round2_point7]

/-- C7: the fallback scorer counts, for each fixed dictionary, the
words occurring in the lower-cased input; the higher count wins with
confidence `min(0.6 + 0.1·count, 0.95)`, and a tie (including zero
matches) yields Neutral with confidence 0.7. -/
theorem simple_scorer_selection (text : String) :
    (negativeScore text < positiveScore text →
      (analyzeSentimentSimple text).label = "Positive" ∧
        (analyzeSentimentSimple text).confidence
          = min (0.6 + (positiveScore text : ℚ) * 0.1) 0.95) ∧
      (positiveScore text < negativeScore text →
        (analyzeSentimentSimple text).label = "Negative" ∧
          (analyzeSentimentSimple text).confidence
            = min (0.6 + (negativeScore text : ℚ) * 0.1) 0.95) ∧
      (positiveScore text = negativeScore text →
        (analyzeSentimentSimple text).label = "Neutral" ∧
          (analyzeSentimentSimple text).confidence = 0.7) := by
  refine ⟨fun h => ⟨?_, ?_⟩, fun h => ⟨?_, ?_⟩, fun h => ⟨?_, ?_⟩⟩
  · simp [analyzeSentimentSimple, rawSentimentConfidence, h, gt_iff_lt]
  · rw [analyzeSimple_confidence]
    simp [rawSentimentConfidence, h, gt_iff_lt]
  · have h' : ¬(negativeScore text < positiveScore text) := by omega
    simp [analyzeSentimentSimple, rawSentimentConfidence, h, h', gt_iff_lt]
  · have h' : ¬(negativeScore text < positiveScore text) := by omega
    rw [analyzeSimple_confidence]
    simp [rawSentimentConfidence, h, h', gt_iff_lt]
  · have h1 : ¬(negativeScore text < positiveScore text) := by omega
    have h2 : ¬(positiveScore text < negativeScore text) := by omega
    simp [analyzeSentimentSimple, rawSentimentConfidence, h1, h2, gt_iff_lt]
  · have h1 : ¬(negativeScore text < positiveScore text) := by omega
    have h2 : ¬(positiveScore text < negativeScore text) := by omega
    rw [analyzeSimple_confidence]
    simp [rawSentimentConfidence, h1, h2, gt_iff_lt]

/-- C7 (witness): one positive word and no negative word. -/
theorem simple_scorer_selection_witness :
    (analyzeSentimentSimple "love").label = "Positive" ∧
      (analyzeSentimentSimple "love").confidence
        = min (0.6 + ((positiveScore "love" : ℕ) : ℚ) * 0.1) 0.95 :=
  (simple_scorer_selection "love").1 (by decide)

/-- C8: for every scorer outcome `(s, c)`, the winner's raw probability
is the confidence `c`; the leftover mass `1 - c` goes 0.3/0.7 to the
two losing classes when the winner is Positive or Negative, and
0.5/0.5 to Positive and Negative when the outcome is Neutral. -/
theorem simple_scorer_mass_split (text : String) (s : String) (c : ℚ)
    (h : rawSentimentConfidence text = (s, c)) :
    (s = "Positive" →
      (rawProbabilities s c).Positive = c ∧
        (rawProbabilities s c).Negative = (1 - c) * 0.3 ∧
        (rawProbabilities s c).Neutral = (1 - c) * 0.7 ∧
        (rawProbabilities s c).Negative + (rawProbabilities s c).Neutral = 1 - c) ∧
      (s = "Negative" →
        (rawProbabilities s c).Negative = c ∧
          (rawProbabilities s c).Positive = (1 - c) * 0.3 ∧
          (rawProbabilities s c).Neutral = (1 - c) * 0.7 ∧
          (rawProbabilities s c).Positive + (rawProbabilities s c).Neutral = 1 - c) ∧
      (s = "Neutral" →
        (rawProbabilities s c).Neutral = c ∧
          (rawProbabilities s c).Positive = (1 - c) * 0.5 ∧
          (rawProbabilities s c).Negative = (1 - c) * 0.5 ∧
          (rawProbabilities s c).Positive + (rawProbabilities s c).Negative = 1 - c) := by
  refine ⟨fun hs => ?_, fun hs => ?_, fun hs => ?_⟩ <;> subst hs <;>
    refine ⟨by simp [rawProbabilities], by simp [rawProbabilities],
      by simp [rawProbabilities], by simp [rawProbabilities]; ring⟩

/-- C8 (witness): the Positive outcome on a one-match text. -/
theorem simple_scorer_mass_split_witness :
    (rawProbabilities "Positive" 0.7).Positive = 0.7 ∧
      (rawProbabilities "Positive" 0.7).Negative = (1 - 0.7) * 0.3 ∧
      (rawProbabilities "Positive" 0.7).Neutral = (1 - 0.7) * 0.7 ∧
      (rawProbabilities "Positive" 0.7).Negative
          + (rawProbabilities "Positive" 0.7).Neutral = 1 - 0.7 := by
  have hc : rawSentimentConfidence "love" = ("Positive", 0.7) := by
    have hp : positiveScore "love" = 1 := by decide
    have hn : negativeScore "love" = 0 := by decide
    norm_num [rawSentimentConfidence, hp, hn, min_def]
  exact (simple_scorer_mass_split "love" "Positive" 0.7 hc).1 rfl

lemma rawConfidence_bounds (text : String) :
    0.6 ≤ (rawSentimentConfidence text).2 ∧ (rawSentimentConfidence text).2 ≤ 0.95 := by
  by_cases h1 : negativeScore text < positiveScore text
  · simp only [rawSentimentConfidence, gt_iff_lt, h1, if_true]
    refine ⟨le_min ?_ (by norm_num), min_le_right _ _⟩
    have hk : (0:ℚ) ≤ (positiveScore text : ℚ) * 0.1 := by positivity
    linarith
  · by_cases h2 : positiveScore text < negativeScore text
    · simp only [rawSentimentConfidence, gt_iff_lt, h1, h2, if_false, if_true]
      refine ⟨le_min ?_ (by norm_num), min_le_right _ _⟩
      have hk : (0:ℚ) ≤ (negativeScore text : ℚ) * 0.1 := by positivity
      linarith
    · simp only [rawSentimentConfidence, gt_iff_lt, h1, h2, if_false]
      norm_num

lemma rawProbabilities_bounds (s : String) (c : ℚ) (h1 : 0.6 ≤ c) (h2 : c ≤ 0.95) :
    (0 ≤ (rawProbabilities s c).Positive ∧ (rawProbabilities s c).Positive ≤ 1) ∧
      (0 ≤ (rawProbabilities s c).Negative ∧ (rawProbabilities s c).Negative ≤ 1) ∧
      (0 ≤ (rawProbabilities s c).Neutral ∧ (rawProbabilities s c).Neutral ≤ 1) ∧
      (rawProbabilities s c).Positive + (rawProbabilities s c).Negative
          + (rawProbabilities s c).Neutral = 1 := by
  unfold rawProbabilities
  split_ifs <;> dsimp only <;>
    refine ⟨⟨?_, ?_⟩, ⟨?_, ?_⟩, ⟨?_, ?_⟩, ?_⟩ <;> first | ring1 | linarith

/-- C10: the fallback scorer's confidence always lies in [0.6, 0.95]
(both the raw value and the returned, rounded one), and the three raw
class probabilities — before the final 2-decimal rounding — are each in
[0, 1] and sum exactly to 1. -/
theorem simple_scorer_probability_distribution (text : String) :
    0.6 ≤ (rawSentimentConfidence text).2 ∧ (rawSentimentConfidence text).2 ≤ 0.95 ∧
      0.6 ≤ (analyzeSentimentSimple text).confidence ∧
      (analyzeSentimentSimple text).confidence ≤ 0.95 ∧
      (0 ≤ (rawProbabilities (rawSentimentConfidence text).1
              (rawSentimentConfidence text).2).Positive ∧
        (rawProbabilities (rawSentimentConfidence text).1
            (rawSentimentConfidence text).2).Positive ≤ 1) ∧
      (0 ≤ (rawProbabilities (rawSentimentConfidence text).1
              (rawSentimentConfidence text).2).Negative ∧
        (rawProbabilities (rawSentimentConfidence text).1
            (rawSentimentConfidence text).2).Negative ≤ 1) ∧
      (0 ≤ (rawProbabilities (rawSentimentConfidence text).1
              (rawSentimentConfidence text).2).Neutral ∧
        (rawProbabilities (rawSentimentConfidence text).1
            (rawSentimentConfidence text).2).Neutral ≤ 1) ∧
      (rawProbabilities (rawSentimentConfidence text).1
            (rawSentimentConfidence text).2).Positive
          + (rawProbabilities (rawSentimentConfidence text).1
              (rawSentimentConfidence text).2).Negative
          + (rawProbabilities (rawSentimentConfidence text).1
              (rawSentimentConfidence text).2).Neutral = 1 := by
  obtain ⟨hc1, hc2⟩ := rawConfidence_bounds text
  have hp := rawProbabilities_bounds (rawSentimentConfidence text).1
    (rawSentimentConfidence text).2 hc1 hc2
  rw [analyzeSimple_confidence]
  exact ⟨hc1, hc2, hc1, hc2, hp.1, hp.2.1, hp.2.2.1, hp.2.2.2⟩

end SentimentIQ
